import Mathlib

/-!
Formal model of the `rust-indexed-db` core: the transaction wrapper
(`src/idb_transaction.rs`) and the object-store accessor
(`src/idb_object_store.rs`), shallowly embedded over an explicit model of
the external IndexedDB storage engine.  State-passing replaces the
engine's mutable handles; machine-level JS values are opaque tokens.
-/

/-- Opaque model of a JavaScript value (keys and stored values).  The
library never inspects values, so an identity token suffices. -/
structure JsValue where
  id : Nat
deriving DecidableEq, Repr

/-- A DOM exception as reported by the engine: a name and a message. -/
structure DomException where
  name : String
  message : String
deriving DecidableEq, Repr

/-- The engine fault raised when an operation is attempted on a finished
transaction. -/
def transactionInactiveError : DomException :=
  { name := "TransactionInactiveError",
    message := "the transaction has finished" }

/-- The engine fault raised by a native `abort()` on a finished
transaction. -/
def invalidStateError : DomException :=
  { name := "InvalidStateError",
    message := "the transaction has already completed or been aborted" }

/-- The engine fault raised by `objectStore(name)` when the name is not in
the transaction scope. -/
def notFoundError : DomException :=
  { name := "NotFoundError",
    message := "the store name is not in the transaction scope" }

/-- Isolation mode of a transaction, fixed at creation
(`web_sys::IdbTransactionMode`). -/
inductive IdbTransactionMode
  | readonly
  | readwrite
  | versionchange
deriving DecidableEq, Repr

/-- Terminal lifecycle state of the engine-side transaction: still active,
committed, cleanly aborted (no engine error), or rolled back with an
engine-reported error. -/
inductive TxLifecycle
  | active
  | committed
  | abortedClean
  | errored (e : DomException)
deriving DecidableEq, Repr

/-- A keyed operation issued against a store, as logged by the engine
model. -/
inductive OpKind
  | clearOp
  | addOp (key : Option JsValue) (val : JsValue)
  | putOp (key : Option JsValue) (val : JsValue)
  | deleteOp (key : JsValue)
deriving DecidableEq, Repr

/-- A native in-flight request handle returned by the engine. -/
structure NativeRequest where
  handle : Nat
deriving DecidableEq, Repr

/-- Model of the engine-side (`web_sys`) transaction handle: the declared
store scope, the isolation mode attribute, the lifecycle state, the three
terminal-event callback slots (`oncomplete`, `onerror`, `onabort`, each
holding at most one registered callback, identified by a token), and the
log of native requests issued on it. -/
structure EngineTx where
  scope : List String
  modeAttr : IdbTransactionMode
  lifecycle : TxLifecycle
  oncomplete : Option Nat
  onerror : Option Nat
  onabort : Option Nat
  requestsIssued : List OpKind
deriving DecidableEq, Repr

/-- Engine attribute read backing `web_sys::IdbTransaction::error`: the
error detail is present exactly when the transaction rolled back with an
engine-reported error (external engine contract, spec section 6). -/
def EngineTx.errorAttr (t : EngineTx) : Option DomException :=
  match t.lifecycle with
  | .errored e => some e
  | _ => none

/-- Engine-native `abort()`: rolls back an active transaction; fires an
`InvalidStateError` fault if the transaction has already completed or
been aborted (external engine contract). -/
def EngineTx.abortNative (t : EngineTx) : Except DomException EngineTx :=
  match t.lifecycle with
  | .active => .ok { t with lifecycle := .abortedClean }
  | _ => .error invalidStateError

/-- Engine attribute read backing `web_sys::IdbTransaction::mode`: reading
the mode attribute of a transaction always succeeds and reports the mode
fixed at creation (external engine contract; the fallible return type is
an artifact of the binding layer). -/
def EngineTx.modeNative (t : EngineTx) : Except DomException IdbTransactionMode :=
  .ok t.modeAttr

/-- Model of the engine-side object store handle obtained from a
transaction: the store name, the lifecycle of the owning transaction
(queried when an operation is issued), and the log of requests issued
through this handle. -/
structure NativeStore where
  storeName : String
  txLifecycle : TxLifecycle
  requests : List OpKind
deriving DecidableEq, Repr

/-- Engine-native `objectStore(name)`: yields a store handle when `name`
is part of the transaction's declared scope, and fires a `NotFoundError`
fault otherwise (external engine contract, spec section 4.2). -/
def EngineTx.objectStoreNative (t : EngineTx) (name : String) :
    Except DomException NativeStore :=
  if name ∈ t.scope then
    .ok { storeName := name, txLifecycle := t.lifecycle, requests := t.requestsIssued }
  else
    .error notFoundError

/-- Engine-native issuing of one keyed operation on a store: synchronously
rejected with a `TransactionInactiveError` fault when the owning
transaction has finished; otherwise exactly one native request is created
and appended to the request log (external engine contract, spec sections
6 and 7). -/
def NativeStore.issue (s : NativeStore) (op : OpKind) :
    Except DomException (NativeRequest × NativeStore) :=
  match s.txLifecycle with
  | .active =>
      .ok ({ handle := s.requests.length },
           { s with requests := s.requests ++ [op] })
  | _ => .error transactionInactiveError

/-- Modelled from the spec: the repository module `idb_transaction_result`
is not under src/.  The tagged terminal outcome of a transaction; variant
names `Success`, `Error`, `Abort` are those used by the tests in
`src/idb_transaction.rs`. -/
inductive IdbTransactionResult
  | Success
  | Error (e : DomException)
  | Abort
deriving DecidableEq, Repr

/-- A terminal lifecycle event fired by the engine on a transaction. -/
inductive TerminalEvent
  | complete
  | abort
  | error (e : DomException)
deriving DecidableEq, Repr

/-- The outcome recorded for each terminal event. -/
def eventOutcome : TerminalEvent → IdbTransactionResult
  | .complete => .Success
  | .abort => .Abort
  | .error e => .Error e

/-- Modelled from the spec: the repository module
`idb_transaction_listeners` is not under src/.  The completion listener
set is a small state holder (spec section 9): either unresolved or
resolved with a recorded outcome, plus at most one stored wake handle. -/
structure IdbTransactionListeners where
  resolved : Option IdbTransactionResult
  waker : Option Nat
deriving DecidableEq, Repr

/-- Callback token registered for the complete event. -/
def completeCallbackTok : Nat := 0

/-- Callback token registered for the error event. -/
def errorCallbackTok : Nat := 1

/-- Callback token registered for the abort event. -/
def abortCallbackTok : Nat := 2

/-- Modelled from the spec: `IdbTransactionListeners::new` (module not
under src/) registers exactly one callback for each of the three terminal
events on the engine transaction and starts unresolved with no stored
wake handle (spec section 4.1). -/
def IdbTransactionListeners.new (t : EngineTx) :
    IdbTransactionListeners × EngineTx :=
  ({ resolved := none, waker := none },
   { t with
      oncomplete := some completeCallbackTok,
      onerror := some errorCallbackTok,
      onabort := some abortCallbackTok })

/-- Modelled from the spec: `IdbTransactionListeners::do_poll` (module not
under src/).  If a terminal event has been recorded, return the recorded
outcome immediately and leave the state untouched; otherwise store the
caller's wake handle (replacing any stale one) and report pending (spec
section 4.1). -/
def IdbTransactionListeners.do_poll (l : IdbTransactionListeners)
    (wakerTok : Nat) :
    Option IdbTransactionResult × IdbTransactionListeners :=
  match l.resolved with
  | some o => (some o, l)
  | none => (none, { l with waker := some wakerTok })

/-- Modelled from the spec: delivery of a terminal engine event to the
listener set.  Only the first terminal event is recorded; later signals
are ignored.  On first resolution the stored wake handle (if any) is
returned for invocation and cleared (spec sections 4.1 and 9). -/
def IdbTransactionListeners.fireEvent (l : IdbTransactionListeners)
    (ev : TerminalEvent) :
    IdbTransactionListeners × Option Nat :=
  match l.resolved with
  | some _ => (l, none)
  | none => ({ resolved := some (eventOutcome ev), waker := none }, l.waker)

/-- Deliver a sequence of terminal engine events to the listener set in
order. -/
def IdbTransactionListeners.runEvents (l : IdbTransactionListeners) :
    List TerminalEvent → IdbTransactionListeners
  | [] => l
  | ev :: rest => (l.fireEvent ev).1.runEvents rest

/-- The transaction wrapper `IdbTransaction` from
`src/idb_transaction.rs`: the engine-side handle, the borrowed database
reference (modelled as an identity token), and the owned completion
listener set. -/
structure IdbTransaction where
  inner : EngineTx
  db : Nat
  listeners : IdbTransactionListeners
deriving DecidableEq, Repr

/-- Embeds `IdbTransaction::new`: constructs the completion listener set
on the engine transaction first, then assembles the wrapper from the
registered engine handle, the database reference and the listener set. -/
def IdbTransaction.new (inner : EngineTx) (db : Nat) : IdbTransaction :=
  let p := IdbTransactionListeners.new inner
  { inner := p.2, db := db, listeners := p.1 }

/-- Embeds `IdbTransaction::mode`: reads the engine mode attribute and
unwraps it; the unwrap is modelled as `Except.toOption`, so a `none`
result would correspond to the panic branch. -/
def IdbTransaction.mode (tx : IdbTransaction) : Option IdbTransactionMode :=
  tx.inner.modeNative.toOption

/-- Embeds `IdbTransaction::error`: delegates to the engine error
attribute. -/
def IdbTransaction.error (tx : IdbTransaction) : Option DomException :=
  tx.inner.errorAttr

/-- Embeds `IdbTransaction::abort`: delegates to the engine-native abort,
propagating its fault; consumes the wrapper (in the embedding, only the
resulting engine state is returned). -/
def IdbTransaction.abort (tx : IdbTransaction) : Except DomException EngineTx :=
  match tx.inner.abortNative with
  | .ok t => .ok t
  | .error e => .error e

/-- Embeds `IdbTransaction::drop` (the `Drop` impl): sets the three
terminal-event callback slots on the engine transaction to `None` and
does nothing else; yields the engine transaction state after disposal. -/
def IdbTransaction.drop (tx : IdbTransaction) : EngineTx :=
  { tx.inner with oncomplete := none, onerror := none, onabort := none }

/-- Embeds `Future::poll` for `IdbTransaction`: delegates suspension to
the listener set's `do_poll`; `some o` models `Poll::Ready(o)` and `none`
models `Poll::Pending`. -/
def IdbTransaction.poll (tx : IdbTransaction) (wakerTok : Nat) :
    Option IdbTransactionResult × IdbTransaction :=
  let p := tx.listeners.do_poll wakerTok
  (p.1, { tx with listeners := p.2 })

/-- Modelled from the spec: the repository type `VoidRequest` (module
`request` not under src/) wraps a native request, registering exactly one
success callback and one error callback at construction, unresolved (spec
section 4.4). -/
structure VoidRequest where
  inner : NativeRequest
  onsuccess : Option Nat
  onerror : Option Nat
  resolvedOutcome : Option (Option DomException)
deriving DecidableEq, Repr

/-- Modelled from the spec: `VoidRequest::new` wraps a freshly issued
native request with its callback pair registered and no outcome recorded
yet (spec section 4.4). -/
def VoidRequest.new (r : NativeRequest) : VoidRequest :=
  { inner := r,
    onsuccess := some 0,
    onerror := some 1,
    resolvedOutcome := none }

/-- The object-store accessor `IdbObjectStore` from
`src/idb_object_store.rs`: the engine-side store handle, the database
reference token, and the optional back-reference to the owning
transaction. -/
structure IdbObjectStore where
  inner : NativeStore
  db : Nat
  tx : Option IdbTransaction
deriving DecidableEq, Repr

/-- Embeds `IdbObjectStore::from_tx`: accessor scoped to a transaction,
carrying the transaction's own database reference and a back-reference to
the transaction. -/
def IdbObjectStore.from_tx (inner : NativeStore) (tx : IdbTransaction) :
    IdbObjectStore :=
  { inner := inner, db := tx.db, tx := some tx }

/-- Embeds `IdbObjectStore::from_db`: accessor derived directly from the
database handle, with no owning transaction. -/
def IdbObjectStore.from_db (inner : NativeStore) (db : Nat) : IdbObjectStore :=
  { inner := inner, db := db, tx := none }

/-- Embeds `IdbTransaction::object_store`: asks the engine for the store
handle (propagating the engine fault) and on success builds an accessor
via `from_tx`. -/
def IdbTransaction.object_store (tx : IdbTransaction) (name : String) :
    Except DomException IdbObjectStore :=
  match tx.inner.objectStoreNative name with
  | .ok st => .ok (IdbObjectStore.from_tx st tx)
  | .error e => .error e

/-- Embeds `IdbObjectStore::clear`: issues one native clear request and
wraps it in a `VoidRequest`; a synchronous engine fault propagates.
Returns the wrapper together with the store state after issuing. -/
def IdbObjectStore.clear (s : IdbObjectStore) :
    Except DomException (VoidRequest × NativeStore) :=
  match s.inner.issue .clearOp with
  | .ok (r, st) => .ok (VoidRequest.new r, st)
  | .error e => .error e

/-- Embeds `IdbObjectStore::add_key_val`: issues one native add-with-key
request and wraps it. -/
def IdbObjectStore.add_key_val (s : IdbObjectStore) (key val : JsValue) :
    Except DomException (VoidRequest × NativeStore) :=
  match s.inner.issue (.addOp (some key) val) with
  | .ok (r, st) => .ok (VoidRequest.new r, st)
  | .error e => .error e

/-- Embeds `IdbObjectStore::put_key_val`: issues one native put-with-key
request and wraps it. -/
def IdbObjectStore.put_key_val (s : IdbObjectStore) (key val : JsValue) :
    Except DomException (VoidRequest × NativeStore) :=
  match s.inner.issue (.putOp (some key) val) with
  | .ok (r, st) => .ok (VoidRequest.new r, st)
  | .error e => .error e

/-- Embeds `IdbObjectStore::delete`: issues one native delete request and
wraps it. -/
def IdbObjectStore.delete (s : IdbObjectStore) (key : JsValue) :
    Except DomException (VoidRequest × NativeStore) :=
  match s.inner.issue (.deleteOp key) with
  | .ok (r, st) => .ok (VoidRequest.new r, st)
  | .error e => .error e

/-- Embeds `IdbObjectStore::add_key_val_owned`: converts the owned key via
its `Into` conversion and delegates to `add_key_val`. -/
def IdbObjectStore.add_key_val_owned {K : Type} (into : K → JsValue)
    (s : IdbObjectStore) (key : K) (val : JsValue) :
    Except DomException (VoidRequest × NativeStore) :=
  s.add_key_val (into key) val

/-- Embeds `IdbObjectStore::put_key_val_owned`: converts the owned key via
its `Into` conversion and delegates to `put_key_val`. -/
def IdbObjectStore.put_key_val_owned {K : Type} (into : K → JsValue)
    (s : IdbObjectStore) (key : K) (val : JsValue) :
    Except DomException (VoidRequest × NativeStore) :=
  s.put_key_val (into key) val

/-- Embeds `IdbObjectStore::delete_owned`: converts the owned key via its
`Into` conversion and delegates to `delete`. -/
def IdbObjectStore.delete_owned {K : Type} (into : K → JsValue)
    (s : IdbObjectStore) (key : K) :
    Except DomException (VoidRequest × NativeStore) :=
  s.delete (into key)

/-! Concrete sample values used by the witness theorems. -/

/-- A live engine transaction over two stores with no listeners yet. -/
def sampleEngineTx : EngineTx :=
  { scope := ["store1", "store2"],
    modeAttr := .readwrite,
    lifecycle := .active,
    oncomplete := none,
    onerror := none,
    onabort := none,
    requestsIssued := [] }

/-- A freshly constructed transaction wrapper over `sampleEngineTx`. -/
def sampleTx : IdbTransaction := IdbTransaction.new sampleEngineTx 7

/-- A sample engine-reported error detail. -/
def sampleExc : DomException := { name := "AbortError", message := "boom" }

/-- The sample transaction after its listener set recorded a success. -/
def sampleResolvedTx : IdbTransaction :=
  { sampleTx with listeners := { resolved := some .Success, waker := none } }

/-- The sample transaction with an already committed engine transaction. -/
def sampleFinishedTx : IdbTransaction :=
  { sampleTx with inner := { sampleTx.inner with lifecycle := .committed } }

/-- The sample transaction with an errored engine transaction. -/
def sampleErroredTx : IdbTransaction :=
  { sampleTx with inner := { sampleTx.inner with lifecycle := .errored sampleExc } }

/-- An accessor over a store of a live transaction, derived from the
database handle. -/
def sampleStoreActive : IdbObjectStore :=
  IdbObjectStore.from_db { storeName := "store1", txLifecycle := .active, requests := [] } 7

/-! Claim theorems. -/

/-- Helper: once the listener set has recorded an outcome, delivering any
further engine events leaves the recorded outcome unchanged. -/
theorem runEvents_preserves_resolved (evs : List TerminalEvent) :
    ∀ (l : IdbTransactionListeners) (o : IdbTransactionResult),
      l.resolved = some o → (l.runEvents evs).resolved = some o := by
  induction evs with
  | nil => intro l o h; exact h
  | cons ev rest ih =>
      intro l o h
      have hfire : (l.fireEvent ev).1 = l := by
        unfold IdbTransactionListeners.fireEvent
        rw [h]
      show ((l.fireEvent ev).1.runEvents rest).resolved = some o
      rw [hfire]
      exact ih l o h

/-- C1: once the transaction's listener set has recorded an outcome,
every subsequent poll returns that same recorded outcome and leaves the
whole wrapper (listener state and engine handle included) unchanged, so
no engine callback is re-invoked after the first resolution. -/
theorem idb_transaction_poll_idempotent_after_resolution
    (tx : IdbTransaction) (o : IdbTransactionResult)
    (h : tx.listeners.resolved = some o) (w : Nat) :
    tx.poll w = (some o, tx) := by
  unfold IdbTransaction.poll IdbTransactionListeners.do_poll
  rw [h]

/-- Witness for C1 at a concrete resolved transaction. -/
theorem idb_transaction_poll_idempotent_witness :
    sampleResolvedTx.poll 5 = (some .Success, sampleResolvedTx) :=
  idb_transaction_poll_idempotent_after_resolution sampleResolvedTx .Success rfl 5

/-- C2: an unresolved listener set that receives at least one terminal
engine event resolves, records exactly the outcome of the first event
(later events never change it), and the outcome type's three variants
are mutually exclusive and collectively exhaustive. -/
theorem idb_transaction_result_exactly_one
    (l : IdbTransactionListeners) (h : l.resolved = none)
    (e : TerminalEvent) (evs : List TerminalEvent) :
    (l.runEvents (e :: evs)).resolved = some (eventOutcome e)
    ∧ ∀ r : IdbTransactionResult,
        (r = .Success ∨ r = .Abort ∨ ∃ d, r = .Error d)
        ∧ ¬(r = .Success ∧ r = .Abort)
        ∧ ¬(r = .Success ∧ ∃ d, r = .Error d)
        ∧ ¬(r = .Abort ∧ ∃ d, r = .Error d) := by
  constructor
  · have hfire : (l.fireEvent e).1
        = { resolved := some (eventOutcome e), waker := none } := by
      unfold IdbTransactionListeners.fireEvent
      rw [h]
    show ((l.fireEvent e).1.runEvents evs).resolved = some (eventOutcome e)
    rw [hfire]
    exact runEvents_preserves_resolved evs _ _ rfl
  · intro r
    cases r <;> simp

/-- Witness for C2 at a concrete unresolved listener set and event. -/
theorem idb_transaction_result_exactly_one_witness :
    ((IdbTransactionListeners.mk none none).runEvents [.complete]).resolved
      = some (eventOutcome .complete) :=
  (idb_transaction_result_exactly_one ⟨none, none⟩ rfl .complete []).1

/-- C3: disposing a transaction wrapper clears all three terminal-event
callback slots on the engine transaction and changes nothing else: the
lifecycle (in particular it is not moved to an aborted state), scope,
mode and issued-request log are exactly those before disposal. -/
theorem idb_transaction_drop_deregisters_and_preserves (tx : IdbTransaction) :
    tx.drop.oncomplete = none
    ∧ tx.drop.onerror = none
    ∧ tx.drop.onabort = none
    ∧ tx.drop.lifecycle = tx.inner.lifecycle
    ∧ tx.drop.scope = tx.inner.scope
    ∧ tx.drop.modeAttr = tx.inner.modeAttr
    ∧ tx.drop.requestsIssued = tx.inner.requestsIssued :=
  ⟨rfl, rfl, rfl, rfl, rfl, rfl, rfl⟩

/-- Witness for C3 at a concrete pending transaction: disposal leaves the
engine transaction active. -/
theorem idb_transaction_drop_witness :
    sampleTx.drop.oncomplete = none ∧ sampleTx.drop.lifecycle = .active :=
  ⟨(idb_transaction_drop_deregisters_and_preserves sampleTx).1,
   (idb_transaction_drop_deregisters_and_preserves sampleTx).2.2.2.1⟩

/-- C4: the transaction's `error()` accessor reports an error detail
exactly when the engine transaction rolled back with that error; it is
absent while the transaction is active, after a clean commit, and after a
clean abort. -/
theorem idb_transaction_error_iff_error_state (tx : IdbTransaction) :
    (∀ e, tx.error = some e ↔ tx.inner.lifecycle = .errored e)
    ∧ (tx.error = none ↔ ∀ e, tx.inner.lifecycle ≠ .errored e) := by
  cases h : tx.inner.lifecycle <;>
    simp [IdbTransaction.error, EngineTx.errorAttr, h]

/-- Witness for C4: at a concrete errored transaction the accessor yields
the recorded detail. -/
theorem idb_transaction_error_witness :
    sampleErroredTx.error = some sampleExc :=
  ((idb_transaction_error_iff_error_state sampleErroredTx).1 sampleExc).mpr rfl

/-- C5: aborting an active transaction rolls it back cleanly; aborting a
transaction whose engine side has already finished (committed, cleanly
aborted, or errored) surfaces the engine's `InvalidStateError` fault
rather than silently succeeding. -/
theorem idb_transaction_abort_fails_iff_finished (tx : IdbTransaction) :
    (tx.inner.lifecycle = .active ↔
        tx.abort = .ok { tx.inner with lifecycle := .abortedClean })
    ∧ (tx.inner.lifecycle ≠ .active ↔ tx.abort = .error invalidStateError) := by
  cases h : tx.inner.lifecycle <;>
    simp [IdbTransaction.abort, EngineTx.abortNative, h]

/-- Witness for C5: aborting a concrete committed transaction surfaces
the engine fault. -/
theorem idb_transaction_abort_witness :
    sampleFinishedTx.abort = .error invalidStateError :=
  ((idb_transaction_abort_fails_iff_finished sampleFinishedTx).2).mp (by decide)

/-- C6: constructing a transaction wrapper immediately registers exactly
one callback in each of the three terminal-event slots of the engine
transaction (three distinct callbacks), initialises the single owned
listener set unresolved with no stored waker, and leaves the engine
scope and lifecycle untouched. -/
theorem idb_transaction_new_registers_listeners (t : EngineTx) (db : Nat) :
    (IdbTransaction.new t db).inner.oncomplete = some completeCallbackTok
    ∧ (IdbTransaction.new t db).inner.onerror = some errorCallbackTok
    ∧ (IdbTransaction.new t db).inner.onabort = some abortCallbackTok
    ∧ completeCallbackTok ≠ errorCallbackTok
    ∧ completeCallbackTok ≠ abortCallbackTok
    ∧ errorCallbackTok ≠ abortCallbackTok
    ∧ (IdbTransaction.new t db).listeners = { resolved := none, waker := none }
    ∧ (IdbTransaction.new t db).db = db
    ∧ (IdbTransaction.new t db).inner.scope = t.scope
    ∧ (IdbTransaction.new t db).inner.lifecycle = t.lifecycle :=
  ⟨rfl, rfl, rfl, by decide, by decide, by decide, rfl, rfl, rfl, rfl⟩

/-- Witness for C6 at the concrete sample engine transaction. -/
theorem idb_transaction_new_witness :
    (IdbTransaction.new sampleEngineTx 7).inner.oncomplete = some completeCallbackTok
    ∧ (IdbTransaction.new sampleEngineTx 7).listeners
        = { resolved := none, waker := none } :=
  ⟨(idb_transaction_new_registers_listeners sampleEngineTx 7).1,
   (idb_transaction_new_registers_listeners sampleEngineTx 7).2.2.2.2.2.2.1⟩

/-- C7: `object_store(name)` fails exactly when `name` is outside the
transaction's declared scope; on success the returned accessor carries a
back-reference to this very transaction, the transaction's own database
reference, and targets the requested store. -/
theorem idb_transaction_object_store_scope (tx : IdbTransaction) (name : String) :
    ((∃ e, tx.object_store name = .error e) ↔ name ∉ tx.inner.scope)
    ∧ ∀ s, tx.object_store name = .ok s →
        s.tx = some tx ∧ s.db = tx.db ∧ s.inner.storeName = name := by
  by_cases h : name ∈ tx.inner.scope <;>
    simp [IdbTransaction.object_store, EngineTx.objectStoreNative, h,
      IdbObjectStore.from_tx]

/-- Witness for C7: looking up a name outside the concrete sample
transaction's scope fails. -/
theorem idb_transaction_object_store_witness :
    ∃ e, sampleTx.object_store "absent" = .error e :=
  ((idb_transaction_object_store_scope sampleTx "absent").1).mpr (by decide)

/-- C8: each mutation operation on an accessor whose transaction is still
active issues exactly one native request (the request log grows by
exactly that one operation) and returns its wrapper synchronously; when
the owning transaction has finished, the engine's synchronous rejection
is surfaced unchanged as the call-site error and no request is issued. -/
theorem idb_object_store_mutations_single_request
    (s : IdbObjectStore) (k v : JsValue) :
    (s.inner.txLifecycle = .active →
        s.clear = .ok (VoidRequest.new ⟨s.inner.requests.length⟩,
            { s.inner with requests := s.inner.requests ++ [.clearOp] })
      ∧ s.add_key_val k v = .ok (VoidRequest.new ⟨s.inner.requests.length⟩,
            { s.inner with requests := s.inner.requests ++ [.addOp (some k) v] })
      ∧ s.put_key_val k v = .ok (VoidRequest.new ⟨s.inner.requests.length⟩,
            { s.inner with requests := s.inner.requests ++ [.putOp (some k) v] })
      ∧ s.delete k = .ok (VoidRequest.new ⟨s.inner.requests.length⟩,
            { s.inner with requests := s.inner.requests ++ [.deleteOp k] }))
    ∧ (s.inner.txLifecycle ≠ .active →
        s.clear = .error transactionInactiveError
      ∧ s.add_key_val k v = .error transactionInactiveError
      ∧ s.put_key_val k v = .error transactionInactiveError
      ∧ s.delete k = .error transactionInactiveError) := by
  cases h : s.inner.txLifecycle <;>
    simp [IdbObjectStore.clear, IdbObjectStore.add_key_val,
      IdbObjectStore.put_key_val, IdbObjectStore.delete, NativeStore.issue, h]

/-- Witness for C8: clearing the concrete live sample store issues
exactly one clear request. -/
theorem idb_object_store_mutations_witness :
    sampleStoreActive.clear = .ok (VoidRequest.new ⟨0⟩,
      { sampleStoreActive.inner with requests := [OpKind.clearOp] }) :=
  ((idb_object_store_mutations_single_request sampleStoreActive ⟨1⟩ ⟨2⟩).1
    (by decide)).1

/-- C9: the transaction's `mode()` accessor never reaches the panic
branch of the unwrapped engine read (it always yields the mode
attribute), and the mode attribute is preserved by every engine-state
transition modelled here (native abort, disposal, construction), so
repeated calls return the same mode fixed at creation. -/
theorem idb_transaction_mode_total_and_fixed (tx : IdbTransaction) :
    tx.mode = some tx.inner.modeAttr
    ∧ (∀ t, tx.inner.abortNative = .ok t → t.modeAttr = tx.inner.modeAttr)
    ∧ tx.drop.modeAttr = tx.inner.modeAttr
    ∧ (∀ t db, (IdbTransaction.new t db).inner.modeAttr = t.modeAttr) := by
  refine ⟨rfl, ?_, rfl, fun t db => rfl⟩
  intro t h
  cases hl : tx.inner.lifecycle with
  | active =>
      simp [EngineTx.abortNative, hl] at h
      simp [← h]
  | committed => simp [EngineTx.abortNative, hl] at h
  | abortedClean => simp [EngineTx.abortNative, hl] at h
  | errored e => simp [EngineTx.abortNative, hl] at h

/-- Witness for C9 at the concrete sample transaction. -/
theorem idb_transaction_mode_witness :
    sampleTx.mode = some IdbTransactionMode.readwrite :=
  (idb_transaction_mode_total_and_fixed sampleTx).1

/-- C10: each owned convenience variant coincides with its by-reference
counterpart after converting the key: `add_key_val_owned`,
`put_key_val_owned` and `delete_owned` delegate to `add_key_val`,
`put_key_val` and `delete` on the converted key. -/
theorem idb_object_store_owned_variants_delegate {K : Type}
    (into : K → JsValue) (s : IdbObjectStore) (k : K) (v : JsValue) :
    s.add_key_val_owned into k v = s.add_key_val (into k) v
    ∧ s.put_key_val_owned into k v = s.put_key_val (into k) v
    ∧ s.delete_owned into k = s.delete (into k) :=
  ⟨rfl, rfl, rfl⟩

/-- Witness for C10 at the concrete sample store with the identity key
conversion. -/
theorem idb_object_store_owned_variants_witness :
    IdbObjectStore.delete_owned (fun x => x) sampleStoreActive ⟨3⟩
      = sampleStoreActive.delete ⟨3⟩ :=
  (idb_object_store_owned_variants_delegate (fun x => x)
    sampleStoreActive ⟨3⟩ ⟨4⟩).2.2
